import Mathlib

set_option autoImplicit false

namespace FpcServer

/-!  Shallow embedding of the fpc-server-rs session and turn orchestration
subsystem (src/main.rs, src/vault.rs, src/proto.rs).  Instants and durations
are modelled as natural numbers of seconds; unbounded channels as lists of
sent values (for peer outbound channels) or a pending-item counter (for the
per-game move signal channel).  -/

/-- Seat colors, vault.rs lines 84 to 90 (enum Color). -/
inductive Color where
  | Red
  | Green
  | Blue
  | Yellow
deriving DecidableEq, Repr

/-- vault.rs lines 92 to 101: ToString for Color. -/
def Color.to_string : Color → String
  | Color.Red => "Red"
  | Color.Green => "Green"
  | Color.Blue => "Blue"
  | Color.Yellow => "Yellow"

/-- Player condition, vault.rs lines 103 to 110 (enum PlayerState). -/
inductive PlayerState where
  | NoState
  | Check
  | Checkmate
  | Stalemate
  | Lost
deriving DecidableEq, Repr

/-- Chess figures, board/mod.rs lines 101 to 109 (enum Figure). -/
inductive Figure where
  | Pawn
  | Bishop
  | Knight
  | Queen
  | King
  | Rook
deriving DecidableEq, Repr

/-- Board squares.  The closed 160-square enum lives in board/position.rs,
which is absent from src (board/mod.rs declares the module but the file is
not present); only the four left-rook start squares that appear in the
embedded main.rs fragments are needed here.  Modelled from the spec: the
Position enum is a closed set of named squares, with left-rook constants
Red d1, Blue a11, Yellow k14, Green n4. -/
inductive Position where
  | d1
  | a11
  | k14
  | n4
deriving DecidableEq, Repr

namespace proto

/-- proto.rs lines 11 to 16 (enum Protocol). -/
inductive Protocol where
  | SupportedVersion (versions : List String)
  | Version (v : String)
deriving DecidableEq, Repr

/-- proto.rs lines 32 to 36 (struct Server). -/
structure Server where
  name : String
  version : String
deriving DecidableEq, Repr

/-- proto.rs lines 38 to 43 (enum ConnectError). -/
inductive ConnectError where
  | UnsupportedProtocolVersion (description : String)
  | UnspecifiedError (description : String)
deriving DecidableEq, Repr

/-- proto.rs lines 45 to 57 (enum Connect). -/
inductive Connect where
  | Client (name : String) (version : String) (protocol : Protocol)
  | Ok (server : Server)
  | Error (e : ConnectError)
deriving DecidableEq, Repr

/-- proto.rs lines 18 to 22 (enum GetInfoError). -/
inductive GetInfoError where
  | UnspecifiedError (description : String)
deriving DecidableEq, Repr

/-- proto.rs lines 24 to 30 (enum GetInfo). -/
inductive GetInfo where
  | Request
  | Ok (protocol : Protocol)
  | Error (e : GetInfoError)
deriving DecidableEq, Repr

/-- proto.rs lines 59 to 64 (enum Handshake). -/
inductive Handshake where
  | GetInfo (gi : GetInfo)
  | Connect (c : Connect)
deriving DecidableEq, Repr

/-- proto.rs lines 67 to 74 (enum PlayerRegisterError). -/
inductive PlayerRegisterError where
  | BadName (description : String)
  | AlreadyRegistered (description : String)
  | Handshake (description : String)
  | UnspecifiedError (description : String)
deriving DecidableEq, Repr

/-- proto.rs lines 76 to 82 (enum PlayerRegister). -/
inductive PlayerRegister where
  | Name (n : String)
  | Ok
  | Error (e : PlayerRegisterError)
deriving DecidableEq, Repr

/-- proto.rs lines 84 to 91 (enum MatchmakingQueue).  The PlayerKick field
is spelled discritpion in the source, and that identifier is what serde
serializes. -/
inductive MatchmakingQueue where
  | PlayerRegister (pr : PlayerRegister)
  | PlayerLeave
  | HeartbeatCheck
  | PlayerKick (discritpion : String)
deriving DecidableEq, Repr

/-- proto.rs lines 132 to 137 (enum MoveError). -/
inductive MoveError where
  | ForbiddenMove (description : String)
  | UnspecifiedError (description : String)
deriving DecidableEq, Repr

/-- proto.rs lines 139 to 160 (enum Move).  The Rust field named from is a
Lean keyword, so it is rendered from_ here (and to as to_ for symmetry). -/
inductive Move where
  | Basic (from_ : Position) (to_ : Position)
  | Capture (from_ : Position) (to_ : Position)
  | Promotion (from_ : Position) (to_ : Position) (into : Figure)
  | Castling (rook : Position)
  | NoMove
  | Error (e : MoveError)
deriving DecidableEq, Repr

/-- proto.rs lines 101 to 106 (struct StartPosition). -/
structure StartPosition where
  player_name : String
  left_rook : Position
deriving DecidableEq, Repr

/-- proto.rs lines 108 to 115 (struct StartPositions, field order red,
green, blue, yellow). -/
structure StartPositions where
  red : StartPosition
  green : StartPosition
  blue : StartPosition
  yellow : StartPosition
deriving DecidableEq, Repr

/-- proto.rs lines 117 to 123 (struct Init). -/
structure Init where
  countdown : Nat
  reconnect_id : String
  start_positions : StartPositions
deriving DecidableEq, Repr

/-- proto.rs lines 170 to 179 (enum MoveCall). -/
inductive MoveCall where
  | NoCall
  | Call (player : String) (timer : Nat) (timer_2 : Nat)
deriving DecidableEq, Repr

/-- proto.rs lines 181 to 185. -/
def MoveCall.is_no_call : MoveCall → Bool
  | MoveCall.NoCall => true
  | MoveCall.Call _ _ _ => false

/-- proto.rs lines 187 to 192 (enum RemainingPieces). -/
inductive RemainingPieces where
  | Clear
  | TurnToStone
deriving DecidableEq, Repr

/-- proto.rs lines 194 to 202 (enum PlayerState, the wire-side one). -/
inductive PlayerState where
  | NoState
  | Check
  | Checkmate
  | Stalemate
  | Lost (remaining_pieces : RemainingPieces)
deriving DecidableEq, Repr

/-- proto.rs lines 218 to 225 (struct PlayersStates). -/
structure PlayersStates where
  red : PlayerState
  blue : PlayerState
  yellow : PlayerState
  green : PlayerState
deriving DecidableEq, Repr

/-- proto.rs lines 227 to 233 (struct Update). -/
structure Update where
  move_call : MoveCall
  move_previous : Move
  players_states : PlayersStates
deriving DecidableEq, Repr

/-- proto.rs lines 162 to 168 (enum GameSession). -/
inductive GameSession where
  | Init (i : Init)
  | Move (m : Move)
  | Update (u : Update)
deriving DecidableEq, Repr

/-- proto.rs lines 235 to 241 (enum Pdu). -/
inductive Pdu where
  | Handshake (h : Handshake)
  | MatchmakingQueue (m : MatchmakingQueue)
  | GameSession (g : GameSession)
deriving DecidableEq, Repr

end proto

/-- proto.rs lines 204 to 216: From vault PlayerState for the wire
PlayerState (Lost carries RemainingPieces Clear). -/
def PlayerState.toProto : PlayerState → proto.PlayerState
  | PlayerState.NoState => proto.PlayerState.NoState
  | PlayerState.Check => proto.PlayerState.Check
  | PlayerState.Checkmate => proto.PlayerState.Checkmate
  | PlayerState.Stalemate => proto.PlayerState.Stalemate
  | PlayerState.Lost => proto.PlayerState.Lost proto.RemainingPieces.Clear

/-- A peer outbound channel (the UnboundedSender half of futures mpsc, called
tx throughout).  isOpen is whether the receiver is still alive; sent is the
list of successfully enqueued messages, in enqueue order.  Messages are
modelled as Pdu values (to_message serializes a Pdu to one text frame just
before enqueue, so enqueue order and content are preserved by this choice). -/
structure Chan where
  isOpen : Bool
  sent : List proto.Pdu
deriving DecidableEq, Repr

/-- UnboundedSender unbounded_send: succeeds and appends iff the receiver is
still alive, otherwise returns an error and leaves the channel unchanged. -/
def Chan.unbounded_send (c : Chan) (m : proto.Pdu) : Except Unit Chan :=
  if c.isOpen then Except.ok { c with sent := c.sent ++ [m] }
  else Except.error ()

/-- vault.rs lines 61 to 65 (struct ClientInfo). -/
structure ClientInfo where
  name : String
  version : String
  protocol : String
deriving DecidableEq, Repr

/-- vault.rs lines 19 to 29 (enum PeerState).  The Game variant holds an
Arc handle to the game in the source; only the color is kept here, the Game
value itself being passed explicitly to the handlers that dereference the
handle. -/
inductive PeerState where
  | Unknown (t : Nat)
  | Idle
  | MMQueue
  | HeartbeatWait (t : Nat)
  | HeartbeatReady (t : Nat)
  | Game (color : Color)
deriving DecidableEq, Repr

/-- vault.rs lines 32 to 34. -/
def PeerState.is_unknown : PeerState → Bool
  | PeerState.Unknown _ => true
  | _ => false

/-- vault.rs lines 67 to 72 (struct Peer). -/
structure Peer where
  tx : Chan
  player_name : Option String
  state : PeerState
  client_info : Option ClientInfo
deriving DecidableEq, Repr

/-- vault.rs lines 126 to 129 (struct Complete).  The Rust field named at is
a Lean keyword, rendered at_. -/
structure Complete where
  mv : proto.Move
  at_ : Nat
deriving DecidableEq, Repr

/-- vault.rs lines 131 to 135 (struct WhoMove). -/
structure WhoMove where
  color : Color
  since : Nat
  complete : Option Complete
deriving DecidableEq, Repr

/-- vault.rs lines 118 to 124 (struct Player).  The peer field is the
Arc handle to the seated Peer; the broadcast path locks it and uses its tx. -/
structure Player where
  color : Color
  reconnect_id : String
  time_remaining : Nat
  state : PlayerState
  peer : Peer
deriving DecidableEq, Repr

/-- The opaque rule-engine board handle (board/mod.rs struct Board).  None of
the embedded operations inspect or change it: every arm of vault.rs
apply_move (lines 389 to 433) leaves the board unchanged and returns Ok, its
castling arm performing only read-only guards through the board API whose
position.rs half is absent from src.  The board is therefore a field with no
observable content here. -/
structure Board where
deriving DecidableEq, Repr

/-- vault.rs lines 137 to 146 (struct Game).  move_happen_signal is the
sender half of the per-game unbounded unit channel; it is modelled by the
number of pending unit items not yet consumed by the turn driver. -/
structure Game where
  id : Nat
  board : Board
  red : Player
  green : Player
  blue : Player
  yellow : Player
  who_move : Option WhoMove
  move_happen_signal : Nat
deriving DecidableEq, Repr

/-- vault.rs lines 149 to 151: players(), in source order red, green, blue,
yellow. -/
def Game.players (g : Game) : List Player :=
  [g.red, g.green, g.blue, g.yellow]

/-- vault.rs lines 160 to 167: player(color). -/
def Game.player (g : Game) (c : Color) : Player :=
  match c with
  | Color.Red => g.red
  | Color.Green => g.green
  | Color.Blue => g.blue
  | Color.Yellow => g.yellow

/-- Write-back of a mutation through player_mut(color), vault.rs lines
168 to 175. -/
def Game.setPlayer (g : Game) (c : Color) (p : Player) : Game :=
  match c with
  | Color.Red => { g with red := p }
  | Color.Green => { g with green := p }
  | Color.Blue => { g with blue := p }
  | Color.Yellow => { g with yellow := p }

/-- vault.rs lines 192 to 196: the count of players whose state is not Lost,
computed at the head of next_moved_player_mut. -/
def Game.no_lost_state_players_count (g : Game) : Nat :=
  (g.players.filter (fun p => p.state != PlayerState.Lost)).length

/-- vault.rs lines 177 to 189: next_moved_player_inner, returning the color
of the first player in the given sequence whose state is NoState, Check,
Checkmate or Stalemate (Lost players are skipped). -/
def Game.next_moved_player_inner (g : Game) : List Color → Option Color
  | [] => none
  | c :: rest =>
    match (g.player c).state with
    | PlayerState.NoState => some c
    | PlayerState.Check => some c
    | PlayerState.Checkmate => some c
    | PlayerState.Stalemate => some c
    | PlayerState.Lost => g.next_moved_player_inner rest

/-- vault.rs lines 191 to 231: next_moved_player_mut, modelled as returning
the color of the selected player (the source returns a mutable reference to
that player). -/
def Game.next_moved_player (g : Game) : Option Color :=
  let no_lost_state_players_count := g.no_lost_state_players_count
  match g.who_move with
  | some wm =>
    if no_lost_state_players_count > 1 then
      match wm.color with
      | Color.Red => g.next_moved_player_inner [Color.Blue, Color.Yellow, Color.Green]
      | Color.Blue => g.next_moved_player_inner [Color.Yellow, Color.Green, Color.Red]
      | Color.Yellow => g.next_moved_player_inner [Color.Green, Color.Red, Color.Blue]
      | Color.Green => g.next_moved_player_inner [Color.Red, Color.Blue, Color.Yellow]
    else none
  | none =>
    if no_lost_state_players_count = 4 then some Color.Red else none

/-- vault.rs lines 252 to 259: validate_player_move.  The mv argument is
received but never inspected. -/
def Game.validate_player_move (g : Game) (mv : proto.Move) (color : Color) : Bool :=
  match g.who_move with
  | some wm => wm.color == color
  | none => false

/-- vault.rs lines 389 to 433: apply_move.  Every arm leaves the game
unchanged and returns Ok: the Basic, Capture and Promotion arms are empty,
the NoMove and Error arms are unit, and the Castling arm performs only
read-only guards whose innermost accepted block (line 419) is empty.  The
result is the pair of the unchanged game and the Ok unit result. -/
def Game.apply_move (g : Game) (mv : proto.Move) : Game × Except proto.MoveError Unit :=
  (g, Except.ok ())

/-- vault.rs lines 233 to 243 inner loop: broadcast over an explicit seat
list.  Each step locks the peer of the next player and calls unbounded_send
on its tx; the question-mark operator propagates the first send error, so a
failure stops the iteration with the earlier sends already performed. -/
def Game.broadcastFrom : Game → List Color → proto.Pdu → Game × Bool
  | g, [], _ => (g, true)
  | g, c :: rest, m =>
    let p := g.player c
    match p.peer.tx.unbounded_send m with
    | Except.ok ch =>
      Game.broadcastFrom (g.setPlayer c { p with peer := { p.peer with tx := ch } }) rest m
    | Except.error _ => (g, false)

/-- vault.rs lines 233 to 243: broadcast, iterating players() in source
order red, green, blue, yellow.  The Bool is true iff all four enqueues
succeeded (Ok(()) in the source); on a failure the already-performed
enqueues persist and the error propagates. -/
def Game.broadcast (g : Game) (m : proto.Pdu) : Game × Bool :=
  Game.broadcastFrom g [Color.Red, Color.Green, Color.Blue, Color.Yellow] m

/-! main.rs: constants, message handlers, matchmaking dispatcher fragments
and the per-game turn driver. -/

/-- main.rs line 41. -/
def PROTO_VER : String := "0"

/-- main.rs line 42. -/
def SERV_NAME : String := "fpc-server-rs"

/-- main.rs line 43. -/
def SERV_VER : String := "0.0.1"

/-- main.rs line 47, in seconds. -/
def GS_INIT_PAUSE : Nat := 10

/-- main.rs line 48, in seconds. -/
def PLAYER_TIMER : Nat := 60

/-- main.rs line 49, in seconds. -/
def PLAYER_TIME_2 : Nat := 5

/-- main.rs lines 121 to 127: the Connect.Ok reply payload. -/
def connect_ok_pdu : proto.Pdu :=
  proto.Pdu.Handshake (proto.Handshake.Connect (proto.Connect.Ok
    { name := SERV_NAME, version := SERV_VER }))

/-- main.rs lines 150 to 155: the Connect.Error reply payload for a
protocol version mismatch. -/
def unsupported_protocol_pdu : proto.Pdu :=
  proto.Pdu.Handshake (proto.Handshake.Connect (proto.Connect.Error
    (proto.ConnectError.UnsupportedProtocolVersion "Unsupported client version")))

/-- main.rs lines 239 to 243: the Move.Error.ForbiddenMove reply payload. -/
def forbidden_move_pdu : proto.Pdu :=
  proto.Pdu.GameSession (proto.GameSession.Move (proto.Move.Error
    (proto.MoveError.ForbiddenMove "not allowed move")))

/-- main.rs lines 643 to 647: the PlayerKick payload built once by the
matchmaking dispatcher (note the source field name discritpion). -/
def kick_pdu : proto.Pdu :=
  proto.Pdu.MatchmakingQueue (proto.MatchmakingQueue.PlayerKick "Heartbeat timeout")

/-- main.rs lines 113 to 159: process_hs_connect, acting on the peer looked
up by address.  Returns the updated peer and whether the peer was inserted
into the Idle bucket.  The version comparison happens before any state
check; in the matching branch the Connect.Ok reply is sent first (its
question-mark error aborting before any mutation) and only a peer in
Unknown state is mutated; in the mismatch branch the error reply is sent
through send_msg_to with no state inspection at all. -/
def process_hs_connect (peer : Peer) (name : String) (version : String)
    (proto_ver : String) : Peer × Bool :=
  if proto_ver = PROTO_VER then
    if peer.state.is_unknown then
      match peer.tx.unbounded_send connect_ok_pdu with
      | Except.ok ch =>
        ({ peer with
            tx := ch
            state := PeerState.Idle
            client_info := some { name := name, version := version, protocol := proto_ver } },
          true)
      | Except.error _ => (peer, false)
    else (peer, false)
  else
    match peer.tx.unbounded_send unsupported_protocol_pdu with
    | Except.ok ch => ({ peer with tx := ch }, false)
    | Except.error _ => (peer, false)

/-- main.rs lines 236 to 307: process_move_make, acting on the peer looked
up by address and the game reached through its Game state.  none models the
panic of who_move.as_mut().unwrap() (unreachable, because
validate_player_move returning true forces who_move to be Some).  A failed
reply enqueue makes the handler return Err with no state change, modelled
as an unchanged pair. -/
def process_move_make (peer : Peer) (g : Game) (mv : proto.Move) (now : Nat) :
    Option (Game × Peer) :=
  match mv with
  | proto.Move.NoMove => some (g, peer)
  | proto.Move.Error _ => some (g, peer)
  | _ =>
    match peer.state with
    | PeerState.Game color =>
      if g.validate_player_move mv color then
        match g.who_move with
        | some wm =>
          some ({ g with
                   who_move := some { wm with complete := some { mv := mv, at_ := now } }
                   move_happen_signal := g.move_happen_signal + 1 },
                peer)
        | none => none
      else
        match peer.tx.unbounded_send forbidden_move_pdu with
        | Except.ok ch => some (g, { peer with tx := ch })
        | Except.error _ => some (g, peer)
    | _ => some (g, peer)

/-- main.rs lines 96 to 102: random_string, drawing 32 alphanumeric
characters from the thread RNG.  The RNG is modelled as a stream of
characters indexed by draw position; one call consumes 32 consecutive
draws starting at the given offset. -/
def random_string (stream : Nat → Char) (offset : Nat) : String :=
  String.mk ((List.range 32).map (fun i => stream (offset + i)))

/-- main.rs lines 752 to 756: the four reconnect ids allocated when a game
is formed.  Four successive random_string calls; the source performs no
uniqueness check or retry (its own comment on line 752 reads
TODO check unique). -/
def allocate_reconnect_ids (stream : Nat → Char) : String × String × String × String :=
  (random_string stream 0, random_string stream 32,
   random_string stream 64, random_string stream 96)

/-- main.rs lines 67 to 94: the game_init_pdu macro.  Parameter order is
red, green, blue, yellow; the body assigns the red parameter to the red
seat, the green parameter to the blue seat, the blue parameter to the
yellow seat and the yellow parameter to the green seat, with the fixed
left-rook squares. -/
def game_init_pdu (pause_time : Nat) (reconnect_id : String)
    (red : String) (green : String) (blue : String) (yellow : String) : proto.Pdu :=
  proto.Pdu.GameSession (proto.GameSession.Init
    { countdown := pause_time
      reconnect_id := reconnect_id
      start_positions :=
        { red := { player_name := red, left_rook := Position.d1 }
          blue := { player_name := green, left_rook := Position.a11 }
          yellow := { player_name := blue, left_rook := Position.k14 }
          green := { player_name := yellow, left_rook := Position.n4 } } })

/-- main.rs lines 818 to 831: the Init frame built by the matchmaking
dispatcher for one seat, as a function of the registered player_name of the
peer seated at each color (in seat order red, blue, yellow, green) and the
reconnect id placed in the frame.  Line 820 of the source clones
yellow_name from the red peer, and the macro is called with arguments
red_name, green_name, blue_name, yellow_name in that order. -/
def dispatcher_seat_init (redName : String) (blueName : String)
    (yellowName : String) (greenName : String) (rid : String) : proto.Pdu :=
  let red_name := redName
  let blue_name := blueName
  let yellow_name := redName
  let green_name := greenName
  game_init_pdu GS_INIT_PAUSE rid red_name green_name blue_name yellow_name

/-- Which side of the select on main.rs line 465 finished first: the move
timer (Either Left) or the move_received channel (Either Right). -/
inductive RaceBranch where
  | timeout
  | moveReceived
deriving DecidableEq, Repr

/-- main.rs lines 475 to 525: race resolution inside one turn-driver
iteration, returning the updated game and move_previous.  none models a
panic of an unwrap (who_move or complete being None where the source
unwraps) or the driver blocking forever on an empty move_received channel:
on the timer branch with complete set, move_received.next() awaits one
pending item; on the signal branch the select itself has consumed one
pending item, so that branch requires a nonempty channel.  apply_move is
called with its result discarded, as in the source. -/
def resolve_race (g : Game) (branch : RaceBranch) : Option (Game × proto.Move) :=
  match branch with
  | RaceBranch.timeout =>
    match g.who_move with
    | none => none
    | some wm =>
      match wm.complete with
      | some cpl =>
        if g.move_happen_signal = 0 then none
        else
          some ({ (g.apply_move cpl.mv).1 with
                    move_happen_signal := g.move_happen_signal - 1 },
                cpl.mv)
      | none =>
        some (g.setPlayer wm.color
                { g.player wm.color with
                    state := PlayerState.Lost
                    time_remaining := 0 },
              proto.Move.NoMove)
  | RaceBranch.moveReceived =>
    if g.move_happen_signal = 0 then none
    else
      match g.who_move with
      | none => none
      | some wm =>
        match wm.complete with
        | none => none
        | some cpl =>
          some ({ (g.apply_move cpl.mv).1 with
                    move_happen_signal := g.move_happen_signal - 1 },
                cpl.mv)

/-- main.rs lines 529 to 552: the while let loop over next_moved_player_mut.
A selected player in Checkmate, Stalemate or Lost state is demoted to Lost
and the loop continues; a selected player in NoState or Check breaks the
loop after setting player_time_remaining, move_call and who_move.  Each
demotion turns a non-Lost player Lost, so at most four demotions can occur
and fuel 5 always suffices; the fuel-exhaustion arm is unreachable. -/
def next_move_loop (now : Nat) : Nat → Game → Nat → Game × proto.MoveCall × Nat
  | 0, g, ptr => (g, proto.MoveCall.NoCall, ptr)
  | fuel + 1, g, ptr =>
    match g.next_moved_player with
    | none => (g, proto.MoveCall.NoCall, ptr)
    | some c =>
      match (g.player c).state with
      | PlayerState.Checkmate =>
        next_move_loop now fuel (g.setPlayer c { g.player c with state := PlayerState.Lost }) ptr
      | PlayerState.Stalemate =>
        next_move_loop now fuel (g.setPlayer c { g.player c with state := PlayerState.Lost }) ptr
      | PlayerState.Lost =>
        next_move_loop now fuel (g.setPlayer c { g.player c with state := PlayerState.Lost }) ptr
      | PlayerState.NoState =>
        ({ g with who_move := some { color := c, since := now, complete := none } },
         proto.MoveCall.Call (Color.to_string c) (g.player c).time_remaining PLAYER_TIME_2,
         (g.player c).time_remaining)
      | PlayerState.Check =>
        ({ g with who_move := some { color := c, since := now, complete := none } },
         proto.MoveCall.Call (Color.to_string c) (g.player c).time_remaining PLAYER_TIME_2,
         (g.player c).time_remaining)

/-- The observable outcome of one turn-driver loop iteration: the game
after the iteration, the Update broadcast during it, the
player_time_remaining value carried to the next iteration, whether the
loop continues (again), and whether the broadcast succeeded (a broadcast
error makes the driver return early, ending the loop without clearing
who_move). -/
structure IterResult where
  game : Game
  update : proto.Update
  ptr : Nat
  again : Bool
  broadcast_ok : Bool
deriving DecidableEq, Repr

/-- main.rs lines 554 to 559: the players_states snapshot taken after the
next-mover loop. -/
def driver_players_states (g2 : Game) : proto.PlayersStates :=
  { red := (g2.player Color.Red).state.toProto
    blue := (g2.player Color.Blue).state.toProto
    yellow := (g2.player Color.Yellow).state.toProto
    green := (g2.player Color.Green).state.toProto }

/-- main.rs lines 527 to 573: everything after the race resolution in one
driver iteration: the next-mover loop, the Update construction, the
broadcast, and the NoCall exit that clears who_move.  A broadcast error
makes the driver return early (the question mark on line 568), ending the
loop without clearing who_move. -/
def driver_finish (g1 : Game) (move_previous : proto.Move) (now : Nat) (ptr : Nat) :
    IterResult :=
  let lp := next_move_loop now 5 g1 ptr
  let g2 := lp.1
  let move_call := lp.2.1
  let ptr2 := lp.2.2
  let update : proto.Update :=
    { move_call := move_call
      move_previous := move_previous
      players_states := driver_players_states g2 }
  let bc := g2.broadcast (proto.Pdu.GameSession (proto.GameSession.Update update))
  let g3 := bc.1
  let ok := bc.2
  if ok = false then
    { game := g3, update := update, ptr := ptr2, again := false, broadcast_ok := false }
  else if move_call.is_no_call then
    { game := { g3 with who_move := none }, update := update, ptr := ptr2,
      again := false, broadcast_ok := true }
  else
    { game := g3, update := update, ptr := ptr2, again := true, broadcast_ok := true }

/-- main.rs lines 460 to 590: one iteration of the turn-driver loop of
move_call_dispatch, entered with the already-resolved select branch, the
current instant and the player_time_remaining computed by the previous
iteration. -/
def driver_iteration (g : Game) (branch : RaceBranch) (now : Nat) (ptr : Nat) :
    Option IterResult :=
  match resolve_race g branch with
  | none => none
  | some (g1, move_previous) => some (driver_finish g1 move_previous now ptr)

/-! Wire encoding.  proto.rs serializes Pdu values with serde_json
(Pdu.to_message, proto.rs lines 243 to 248).  Every enum carries
serde(rename_all = snake_case), so an enum value is externally tagged by
its snake_case variant name; struct-variant fields keep their Rust
identifiers (rename_all on an enum renames variants, not their fields).
The JSON tree is modelled structurally. -/

/-- A JSON value (the subset produced by the embedded encoders). -/
inductive Json where
  | str (s : String)
  | num (n : Nat)
  | arr (xs : List Json)
  | obj (fields : List (String × Json))

/-- Lookup of a key in a JSON object (none on a non-object or missing key). -/
def Json.getObj : Json → String → Option Json
  | Json.obj fs, k => (fs.find? (fun f => f.1 == k)).map (fun f => f.2)
  | _, _ => none

/-- Whether a JSON object has a field with the given name. -/
def Json.hasKey (j : Json) (k : String) : Bool :=
  (j.getObj k).isSome

/-- serde encoding of PlayerRegisterError (proto.rs lines 67 to 74):
externally tagged struct variants with snake_case variant names. -/
def encode_player_register_error : proto.PlayerRegisterError → Json
  | proto.PlayerRegisterError.BadName d =>
    Json.obj [("bad_name", Json.obj [("description", Json.str d)])]
  | proto.PlayerRegisterError.AlreadyRegistered d =>
    Json.obj [("already_registered", Json.obj [("description", Json.str d)])]
  | proto.PlayerRegisterError.Handshake d =>
    Json.obj [("handshake", Json.obj [("description", Json.str d)])]
  | proto.PlayerRegisterError.UnspecifiedError d =>
    Json.obj [("unspecified_error", Json.obj [("description", Json.str d)])]

/-- serde encoding of PlayerRegister (proto.rs lines 76 to 82). -/
def encode_player_register : proto.PlayerRegister → Json
  | proto.PlayerRegister.Name n => Json.obj [("name", Json.str n)]
  | proto.PlayerRegister.Ok => Json.obj [("ok", Json.obj [])]
  | proto.PlayerRegister.Error e => Json.obj [("error", encode_player_register_error e)]

/-- serde encoding of MatchmakingQueue (proto.rs lines 84 to 91).  The
PlayerKick variant serializes its single field under the identifier it has
in the source, discritpion (snake_case renaming applies to the variant
name player_kick, not to the field). -/
def encode_matchmaking_queue : proto.MatchmakingQueue → Json
  | proto.MatchmakingQueue.PlayerRegister pr =>
    Json.obj [("player_register", encode_player_register pr)]
  | proto.MatchmakingQueue.PlayerLeave => Json.obj [("player_leave", Json.obj [])]
  | proto.MatchmakingQueue.HeartbeatCheck => Json.obj [("heartbeat_check", Json.obj [])]
  | proto.MatchmakingQueue.PlayerKick d =>
    Json.obj [("player_kick", Json.obj [("discritpion", Json.str d)])]

/-- serde encoding of the Pdu wrapper (proto.rs lines 235 to 241) for the
MatchmakingQueue family: one more external tag matchmaking_queue. -/
def encode_pdu_matchmaking_queue (m : proto.MatchmakingQueue) : Json :=
  Json.obj [("matchmaking_queue", encode_matchmaking_queue m)]

/-- The wire form of the dispatcher kick frame, main.rs lines 643 to 647
followed by Pdu.to_message. -/
def kick_pdu_json : Json :=
  encode_pdu_matchmaking_queue (proto.MatchmakingQueue.PlayerKick "Heartbeat timeout")

/-! Spec-side definitions, used to state claims against the embedding. -/

/-- The fixed seat order of the spec: Red to Blue to Yellow to Green and
back to Red. -/
def seat_successor : Color → Color
  | Color.Red => Color.Blue
  | Color.Blue => Color.Yellow
  | Color.Yellow => Color.Green
  | Color.Green => Color.Red

/-- The three successors of a seat in the fixed order. -/
def seat_successors (c : Color) : List Color :=
  [seat_successor c, seat_successor (seat_successor c),
   seat_successor (seat_successor (seat_successor c))]

/-- Pairwise distinctness of four strings. -/
def pairwise_distinct (a b c d : String) : Bool :=
  a != b && a != c && a != d && b != c && b != d && c != d

/-- The moves the handler treats as move-make requests (main.rs lines
245 to 249): Basic, Capture, Promotion and Castling, but not NoMove or
Error. -/
def proto.Move.is_game_make : proto.Move → Bool
  | proto.Move.NoMove => false
  | proto.Move.Error _ => false
  | _ => true

/-! Concrete sample states used to evaluate the embedding. -/

/-- An outbound channel whose receiver is alive and which has sent
nothing yet. -/
def open_chan : Chan := { isOpen := true, sent := [] }

/-- An outbound channel whose receiver has been dropped. -/
def closed_chan : Chan := { isOpen := false, sent := [] }

/-- A seated peer with the given color and registered name. -/
def sample_peer (c : Color) (n : String) : Peer :=
  { tx := open_chan, player_name := some n, state := PeerState.Game c,
    client_info := none }

/-- A player record as built at game formation (main.rs lines 760 to 793):
full PLAYER_TIMER budget and NoState condition. -/
def sample_player (c : Color) (n : String) (rid : String) : Player :=
  { color := c, reconnect_id := rid, time_remaining := PLAYER_TIMER,
    state := PlayerState.NoState, peer := sample_peer c n }

/-- A freshly formed game whose first move call has gone out to Red. -/
def sample_game : Game :=
  { id := 0
    board := {}
    red := sample_player Color.Red "p1" "r1"
    green := sample_player Color.Green "p4" "r4"
    blue := sample_player Color.Blue "p2" "r2"
    yellow := sample_player Color.Yellow "p3" "r3"
    who_move := some { color := Color.Red, since := 100, complete := none }
    move_happen_signal := 0 }

/-- A concrete move payload. -/
def sample_move : proto.Move := proto.Move.Castling Position.d1

/-- A second, distinct concrete move payload. -/
def sample_move_2 : proto.Move := proto.Move.Basic Position.d1 Position.a11

/-! Shared structural lemmas about the embedding. -/

theorem setPlayer_move_happen_signal (g : Game) (c : Color) (p : Player) :
    (g.setPlayer c p).move_happen_signal = g.move_happen_signal := by
  cases c <;> rfl

theorem setPlayer_who_move (g : Game) (c : Color) (p : Player) :
    (g.setPlayer c p).who_move = g.who_move := by
  cases c <;> rfl

theorem broadcastFrom_move_happen_signal (l : List Color) (g : Game) (m : proto.Pdu) :
    (Game.broadcastFrom g l m).1.move_happen_signal = g.move_happen_signal := by
  induction l generalizing g with
  | nil => rfl
  | cons c rest ih =>
    cases h : (g.player c).peer.tx.unbounded_send m with
    | ok ch =>
      simp only [Game.broadcastFrom, h]
      rw [ih, setPlayer_move_happen_signal]
    | error e => simp [Game.broadcastFrom, h]

theorem broadcast_move_happen_signal (g : Game) (m : proto.Pdu) :
    (g.broadcast m).1.move_happen_signal = g.move_happen_signal :=
  broadcastFrom_move_happen_signal _ g m

theorem next_move_loop_move_happen_signal (now : Nat) (fuel : Nat) (g : Game) (ptr : Nat) :
    (next_move_loop now fuel g ptr).1.move_happen_signal = g.move_happen_signal := by
  induction fuel generalizing g ptr with
  | zero => rfl
  | succ n ih =>
    unfold next_move_loop
    cases hn : g.next_moved_player with
    | none => simp [hn]
    | some c =>
      cases hs : (g.player c).state <;>
        simp [hn, hs, ih, setPlayer_move_happen_signal]

/-- vault.rs next_moved_player_inner coincides with finding the first
non-Lost player of the sequence. -/
theorem inner_eq_find (g : Game) (l : List Color) :
    g.next_moved_player_inner l =
      l.find? (fun c => (g.player c).state != PlayerState.Lost) := by
  induction l with
  | nil => rfl
  | cons c rest ih =>
    cases h : (g.player c).state <;>
      simp [Game.next_moved_player_inner, List.find?_cons, h, ih]

/-- The committing path of process_move_make: a make-request from the peer
seated as the current mover records the completed move and enqueues one
signal item, replying nothing. -/
theorem process_move_make_commit (peer : Peer) (g : Game) (mv : proto.Move)
    (now : Nat) (color : Color) (wm : WhoMove)
    (hpeer : peer.state = PeerState.Game color)
    (hmk : mv.is_game_make = true)
    (hwm : g.who_move = some wm) (hcol : wm.color = color) :
    process_move_make peer g mv now =
      some ({ g with
               who_move := some { wm with complete := some { mv := mv, at_ := now } }
               move_happen_signal := g.move_happen_signal + 1 },
            peer) := by
  have hval : g.validate_player_move mv color = true := by
    unfold Game.validate_player_move
    rw [hwm]
    simp [hcol]
  cases mv <;> simp_all [process_move_make, proto.Move.is_game_make]

/-- After the race is resolved, the rest of a driver iteration neither
consumes nor produces move signal items, and reports the resolved
move_previous in its Update. -/
theorem driver_finish_signal_previous (g1 : Game) (mp : proto.Move) (now : Nat) (ptr : Nat) :
    (driver_finish g1 mp now ptr).game.move_happen_signal = g1.move_happen_signal ∧
    (driver_finish g1 mp now ptr).update.move_previous = mp := by
  unfold driver_finish
  dsimp only
  split
  · simp [broadcast_move_happen_signal, next_move_loop_move_happen_signal]
  · split
    · simp [broadcast_move_happen_signal, next_move_loop_move_happen_signal]
    · simp [broadcast_move_happen_signal, next_move_loop_move_happen_signal]

/-- The rejecting path of process_move_make: a make-request failing
validate_player_move gets the ForbiddenMove reply and the game is
untouched. -/
theorem process_move_make_reject (peer : Peer) (g : Game) (mv : proto.Move)
    (now : Nat) (color : Color)
    (hpeer : peer.state = PeerState.Game color)
    (hmk : mv.is_game_make = true)
    (hval : g.validate_player_move mv color = false)
    (hopen : peer.tx.isOpen = true) :
    process_move_make peer g mv now =
      some (g, { peer with
                  tx := { peer.tx with sent := peer.tx.sent ++ [forbidden_move_pdu] } }) := by
  cases mv <;>
    simp_all [process_move_make, proto.Move.is_game_make, Chan.unbounded_send]

/-! Claim theorems. -/

/-- C1: next_moved_player_mut is a pure function of the four player
conditions and the current mover, following the fixed seat order Red, Blue,
Yellow, Green, Red: with a current mover and at least two non-Lost players
it returns the first of the three successors of the mover, in that order,
whose condition is not Lost; with at most one non-Lost player it returns
none; and with no current mover it returns Red exactly when all four
players are non-Lost, otherwise none. -/
theorem C1_next_moved_player_follows_seat_order (g : Game) (wm : WhoMove) :
    (g.who_move = some wm → 2 ≤ g.no_lost_state_players_count →
      g.next_moved_player =
        (seat_successors wm.color).find?
          (fun c => (g.player c).state != PlayerState.Lost)) ∧
    (g.no_lost_state_players_count ≤ 1 → g.next_moved_player = none) ∧
    (g.who_move = none →
      g.next_moved_player =
        (if g.no_lost_state_players_count = 4 then some Color.Red else none)) := by
  refine ⟨?_, ?_, ?_⟩
  · intro h h2
    have hgt : g.no_lost_state_players_count > 1 := h2
    cases hc : wm.color <;>
      simp [Game.next_moved_player, h, hc, hgt, inner_eq_find, seat_successors,
            seat_successor]
  · intro h1
    cases hw : g.who_move with
    | none =>
      have hne : ¬ g.no_lost_state_players_count = 4 := by omega
      simp [Game.next_moved_player, hw, hne]
    | some wm2 =>
      have hng : ¬ g.no_lost_state_players_count > 1 := by omega
      simp [Game.next_moved_player, hw, hng]
  · intro h
    simp [Game.next_moved_player, h]

/-- Witness for C1 at a concrete game: Red is the current mover, nobody is
Lost, and the successor scan applies. -/
theorem C1_witness :
    sample_game.next_moved_player =
      (seat_successors Color.Red).find?
        (fun c => (sample_game.player c).state != PlayerState.Lost) :=
  (C1_next_moved_player_follows_seat_order sample_game
      { color := Color.Red, since := 100, complete := none }).1 rfl (by decide)

/-- C10: validate_player_move returns true iff who_move is Some and records
the given color, and its result does not depend on the submitted move. -/
theorem C10_validate_ignores_move (g : Game) (mv : proto.Move) (color : Color) :
    (g.validate_player_move mv color = true ↔
      ∃ wm, g.who_move = some wm ∧ wm.color = color) ∧
    (∀ mv2 : proto.Move,
      g.validate_player_move mv color = g.validate_player_move mv2 color) := by
  constructor
  · unfold Game.validate_player_move
    cases hw : g.who_move with
    | none => simp
    | some wm => simp
  · intro mv2
    rfl

/-- C4: a Basic, Capture, Promotion or Castling message from a peer seated
in a game is committed when who_move names the peer color (complete
recorded with the move and instant, one item pushed into the move signal
channel, no reply), and otherwise answered with Move.Error.ForbiddenMove
while the game is left unchanged. -/
theorem C4_process_move_make_commits_or_rejects (peer : Peer) (g : Game)
    (mv : proto.Move) (now : Nat) (color : Color)
    (hpeer : peer.state = PeerState.Game color)
    (hmk : mv.is_game_make = true) :
    (∀ wm : WhoMove, g.who_move = some wm → wm.color = color →
      process_move_make peer g mv now =
        some ({ g with
                 who_move := some { wm with complete := some { mv := mv, at_ := now } }
                 move_happen_signal := g.move_happen_signal + 1 },
              peer)) ∧
    (g.validate_player_move mv color = false → peer.tx.isOpen = true →
      process_move_make peer g mv now =
        some (g, { peer with
                    tx := { peer.tx with
                             sent := peer.tx.sent ++ [forbidden_move_pdu] } })) := by
  constructor
  · intro wm hwm hcol
    exact process_move_make_commit peer g mv now color wm hpeer hmk hwm hcol
  · intro hval hopen
    exact process_move_make_reject peer g mv now color hpeer hmk hval hopen

/-- Witness for C4: the current mover Red submits a castling request and
the handler records it and signals the driver. -/
theorem C4_witness :
    process_move_make (sample_peer Color.Red "p1") sample_game sample_move 120 =
      some ({ sample_game with
               who_move := some { color := Color.Red, since := 100,
                                  complete := some { mv := sample_move, at_ := 120 } }
               move_happen_signal := sample_game.move_happen_signal + 1 },
            sample_peer Color.Red "p1") :=
  (C4_process_move_make_commits_or_rejects (sample_peer Color.Red "p1") sample_game
      sample_move 120 Color.Red rfl rfl).1
    { color := Color.Red, since := 100, complete := none } rfl rfl

/-- Rewriting form of driver_iteration under a resolved race. -/
theorem driver_iteration_eq (g : Game) (branch : RaceBranch) (now : Nat) (ptr : Nat)
    (g1 : Game) (mp : proto.Move)
    (hres : resolve_race g branch = some (g1, mp)) :
    driver_iteration g branch now ptr = some (driver_finish g1 mp now ptr) := by
  unfold driver_iteration
  rw [hres]

/-- The game of claim C2: Red was called at instant 100 with the full 60
second budget and the handler accepted a move at instant 120 (20 seconds of
wall time), so one signal item is pending. -/
def gC2 : Game :=
  { sample_game with
      who_move := some { color := Color.Red, since := 100,
                         complete := some { mv := sample_move, at_ := 120 } }
      move_happen_signal := 1 }

/-- C2 (code bug): the driver never debits think time when a move is
received: on the C2 game the signal branch of the iteration leaves the
time of the mover at the full 60 seconds instead of the 45 seconds (60
minus (20 seconds elapsed minus the 5 second grace)) the claim requires.
No statement of move_call_dispatch subtracts from time_remaining outside
the timeout branch that zeroes it. -/
theorem C2_no_time_deduction_on_received_move :
    ((driver_iteration gC2 RaceBranch.moveReceived 120 60).map
        (fun r => r.game.red.time_remaining)) = some PLAYER_TIMER ∧
    ((driver_iteration gC2 RaceBranch.moveReceived 120 60).map
        (fun r => r.game.red.time_remaining)) ≠
      some (PLAYER_TIMER - (20 - PLAYER_TIME_2)) := by
  constructor
  · rfl
  · decide

/-- C3 counterexample: from the sample game (Red called, empty signal
channel), Red commits two accepted moves in the same turn (each pushing
one signal item, since validate_player_move does not require complete to be
empty); the iteration on the timer branch drains exactly one item and the
driver continues, so the next iteration begins with one stale signal item
still pending. -/
theorem C3_counterexample :
    ((process_move_make (sample_peer Color.Red "p1") sample_game sample_move 101).bind
      (fun s1 =>
        (process_move_make (sample_peer Color.Red "p1") s1.1 sample_move_2 102).bind
          (fun s2 =>
            (driver_iteration s2.1 RaceBranch.timeout 102 60).map
              (fun r => (r.game.move_happen_signal, r.again))))) = some (1, true) := by
  decide

/-- C3 (amended): when the timer branch fires with complete set the driver
drains exactly one signal item and reports the completed move as
move_previous; and provided at most one accepted move is committed during
a turn that starts with an empty signal channel, every iteration outcome
leaves the channel empty again, so the next iteration does not inherit a
stale signal item.  (Without the at-most-one-commit proviso the
consequence fails: see the counterexample, where the mover commits twice
in one turn.) -/
theorem C3_single_commit_keeps_channel_clean (g : Game) (wm : WhoMove) (peer : Peer)
    (mv : proto.Move) (t : Nat) (now : Nat) (ptr : Nat) (g1 : Game) (p1 : Peer)
    (hsig : g.move_happen_signal = 0)
    (hwm : g.who_move = some wm)
    (hc : wm.complete = none)
    (hpeer : peer.state = PeerState.Game wm.color)
    (hmk : mv.is_game_make = true)
    (hcommit : process_move_make peer g mv t = some (g1, p1)) :
    g1.move_happen_signal = 1 ∧
    (∀ r : IterResult, driver_iteration g1 RaceBranch.timeout now ptr = some r →
      r.game.move_happen_signal = 0 ∧ r.update.move_previous = mv) ∧
    (∀ r : IterResult, driver_iteration g1 RaceBranch.moveReceived now ptr = some r →
      r.game.move_happen_signal = 0) ∧
    (∀ r : IterResult, driver_iteration g RaceBranch.timeout now ptr = some r →
      r.game.move_happen_signal = 0) := by
  have hcommit2 := process_move_make_commit peer g mv t wm.color wm hpeer hmk hwm rfl
  have h := hcommit.symm.trans hcommit2
  simp only [Option.some.injEq, Prod.mk.injEq] at h
  obtain ⟨hg1, hp1⟩ := h
  subst hg1
  refine ⟨by simp [hsig], ?_, ?_, ?_⟩
  · intro r hr
    have hres : resolve_race
        { g with
            who_move := some { wm with complete := some { mv := mv, at_ := t } }
            move_happen_signal := g.move_happen_signal + 1 }
        RaceBranch.timeout =
        some ({ g with
                 who_move := some { wm with complete := some { mv := mv, at_ := t } }
                 move_happen_signal := g.move_happen_signal + 1 - 1 },
              mv) := by
      simp [resolve_race, Game.apply_move]
    rw [driver_iteration_eq _ _ _ _ _ _ hres] at hr
    injection hr with hr2
    subst hr2
    have hd := driver_finish_signal_previous
      { g with
          who_move := some { wm with complete := some { mv := mv, at_ := t } }
          move_happen_signal := g.move_happen_signal + 1 - 1 } mv now ptr
    refine ⟨?_, hd.2⟩
    rw [hd.1]
    simp [hsig]
  · intro r hr
    have hres : resolve_race
        { g with
            who_move := some { wm with complete := some { mv := mv, at_ := t } }
            move_happen_signal := g.move_happen_signal + 1 }
        RaceBranch.moveReceived =
        some ({ g with
                 who_move := some { wm with complete := some { mv := mv, at_ := t } }
                 move_happen_signal := g.move_happen_signal + 1 - 1 },
              mv) := by
      simp [resolve_race, Game.apply_move]
    rw [driver_iteration_eq _ _ _ _ _ _ hres] at hr
    injection hr with hr2
    subst hr2
    have hd := driver_finish_signal_previous
      { g with
          who_move := some { wm with complete := some { mv := mv, at_ := t } }
          move_happen_signal := g.move_happen_signal + 1 - 1 } mv now ptr
    rw [hd.1]
    simp [hsig]
  · intro r hr
    have hres : resolve_race g RaceBranch.timeout =
        some (g.setPlayer wm.color
                { g.player wm.color with
                    state := PlayerState.Lost
                    time_remaining := 0 },
              proto.Move.NoMove) := by
      simp [resolve_race, hwm, hc]
    rw [driver_iteration_eq _ _ _ _ _ _ hres] at hr
    injection hr with hr2
    subst hr2
    have hd := driver_finish_signal_previous
      (g.setPlayer wm.color
        { g.player wm.color with state := PlayerState.Lost, time_remaining := 0 })
      proto.Move.NoMove now ptr
    rw [hd.1, setPlayer_move_happen_signal, hsig]

/-- Witness for C3 at a single-commit turn: Red commits one accepted move,
the channel holds one item, and the timer-branch iteration drains it back
to empty while reporting the move. -/
theorem C3_witness :
    ({ sample_game with
        who_move := some { color := Color.Red, since := 100,
                           complete := some { mv := sample_move, at_ := 101 } }
        move_happen_signal := sample_game.move_happen_signal + 1 } : Game).move_happen_signal
      = 1 :=
  (C3_single_commit_keeps_channel_clean sample_game
    { color := Color.Red, since := 100, complete := none }
    (sample_peer Color.Red "p1") sample_move 101 120 60
    { sample_game with
        who_move := some { color := Color.Red, since := 100,
                           complete := some { mv := sample_move, at_ := 101 } }
        move_happen_signal := sample_game.move_happen_signal + 1 }
    (sample_peer Color.Red "p1") rfl rfl rfl rfl rfl rfl).1

/-- C5 (code bug): with the four seated players registered as p1 (Red
seat), p2 (Blue seat), p3 (Yellow seat) and p4 (Green seat), the Init
frame built by the dispatcher carries the Red name on the red seat, the
Green name on the blue seat, the Blue name on the yellow seat and the Red
name again on the green seat; the Yellow name p3 appears on no seat. -/
theorem C5_init_frame_names_wrong_seats :
    dispatcher_seat_init "p1" "p2" "p3" "p4" "tok" =
      proto.Pdu.GameSession (proto.GameSession.Init
        { countdown := GS_INIT_PAUSE
          reconnect_id := "tok"
          start_positions :=
            { red := { player_name := "p1", left_rook := Position.d1 }
              green := { player_name := "p1", left_rook := Position.n4 }
              blue := { player_name := "p4", left_rook := Position.a11 }
              yellow := { player_name := "p2", left_rook := Position.k14 } } }) := rfl

/-- A concrete broadcast payload. -/
def sample_pdu : proto.Pdu :=
  proto.Pdu.MatchmakingQueue proto.MatchmakingQueue.HeartbeatCheck

/-- The game of claim C6: the green seat peer channel is closed, the other
three are open. -/
def gC6 : Game :=
  { sample_game with
      green := { sample_game.green with
                  peer := { sample_game.green.peer with tx := closed_chan } } }

/-- C6 counterexample: broadcasting to the C6 game delivers to the red
seat, fails on the green seat (second in the iteration order red, green,
blue, yellow) and never enqueues to the blue and yellow seats: one failed
enqueue aborts delivery to the remaining peers instead of continuing. -/
theorem C6_counterexample :
    (gC6.broadcast sample_pdu).2 = false ∧
    (gC6.broadcast sample_pdu).1.red.peer.tx.sent = [sample_pdu] ∧
    (gC6.broadcast sample_pdu).1.blue.peer.tx.sent = [] ∧
    (gC6.broadcast sample_pdu).1.yellow.peer.tx.sent = [] :=
  ⟨rfl, rfl, rfl, rfl⟩

/-- C6 (amended): broadcast iterates the seats in the fixed source order
red, green, blue, yellow and stops at the first enqueue failure,
propagating the error: seats before the failure have received the message
and seats from the failure on have not; only when every enqueue succeeds
does the message reach all four seats. -/
theorem C6_broadcast_stops_at_first_failure (g : Game) (m : proto.Pdu) :
    (g.red.peer.tx.isOpen = true → g.green.peer.tx.isOpen = true →
     g.blue.peer.tx.isOpen = true → g.yellow.peer.tx.isOpen = true →
      g.broadcast m =
        ({ g with
            red := { g.red with peer := { g.red.peer with
              tx := { g.red.peer.tx with sent := g.red.peer.tx.sent ++ [m] } } }
            green := { g.green with peer := { g.green.peer with
              tx := { g.green.peer.tx with sent := g.green.peer.tx.sent ++ [m] } } }
            blue := { g.blue with peer := { g.blue.peer with
              tx := { g.blue.peer.tx with sent := g.blue.peer.tx.sent ++ [m] } } }
            yellow := { g.yellow with peer := { g.yellow.peer with
              tx := { g.yellow.peer.tx with sent := g.yellow.peer.tx.sent ++ [m] } } } },
         true)) ∧
    (g.red.peer.tx.isOpen = false → g.broadcast m = (g, false)) ∧
    (g.red.peer.tx.isOpen = true → g.green.peer.tx.isOpen = false →
      g.broadcast m =
        ({ g with
            red := { g.red with peer := { g.red.peer with
              tx := { g.red.peer.tx with sent := g.red.peer.tx.sent ++ [m] } } } },
         false)) ∧
    (g.red.peer.tx.isOpen = true → g.green.peer.tx.isOpen = true →
     g.blue.peer.tx.isOpen = false →
      g.broadcast m =
        ({ g with
            red := { g.red with peer := { g.red.peer with
              tx := { g.red.peer.tx with sent := g.red.peer.tx.sent ++ [m] } } }
            green := { g.green with peer := { g.green.peer with
              tx := { g.green.peer.tx with sent := g.green.peer.tx.sent ++ [m] } } } },
         false)) ∧
    (g.red.peer.tx.isOpen = true → g.green.peer.tx.isOpen = true →
     g.blue.peer.tx.isOpen = true → g.yellow.peer.tx.isOpen = false →
      g.broadcast m =
        ({ g with
            red := { g.red with peer := { g.red.peer with
              tx := { g.red.peer.tx with sent := g.red.peer.tx.sent ++ [m] } } }
            green := { g.green with peer := { g.green.peer with
              tx := { g.green.peer.tx with sent := g.green.peer.tx.sent ++ [m] } } }
            blue := { g.blue with peer := { g.blue.peer with
              tx := { g.blue.peer.tx with sent := g.blue.peer.tx.sent ++ [m] } } } },
         false)) := by
  refine ⟨?_, ?_, ?_, ?_, ?_⟩
  · intro h1 h2 h3 h4
    simp [Game.broadcast, Game.broadcastFrom, Game.player, Game.setPlayer,
          Chan.unbounded_send, h1, h2, h3, h4]
  · intro h1
    simp [Game.broadcast, Game.broadcastFrom, Game.player, Game.setPlayer,
          Chan.unbounded_send, h1]
  · intro h1 h2
    simp [Game.broadcast, Game.broadcastFrom, Game.player, Game.setPlayer,
          Chan.unbounded_send, h1, h2]
  · intro h1 h2 h3
    simp [Game.broadcast, Game.broadcastFrom, Game.player, Game.setPlayer,
          Chan.unbounded_send, h1, h2, h3]
  · intro h1 h2 h3 h4
    simp [Game.broadcast, Game.broadcastFrom, Game.player, Game.setPlayer,
          Chan.unbounded_send, h1, h2, h3, h4]

/-- Witness for C6 at the sample game with all channels open: the
broadcast succeeds. -/
theorem C6_witness : (sample_game.broadcast sample_pdu).2 = true := by
  have h := (C6_broadcast_stops_at_first_failure sample_game sample_pdu).1 rfl rfl rfl rfl
  rw [h]

/-- The RNG stream whose every draw is the letter a. -/
def const_a_stream : Nat → Char := fun _ => 'a'

/-- C7 (code bug): with an RNG whose draws are all the letter a, the four
reconnect ids allocated at game formation are all the same 32-letter
string: the dispatcher performs no distinctness check and no retry (its
own comment on main.rs line 752 reads TODO check unique), so token
uniqueness is not an invariant preserved by game creation. -/
theorem C7_no_uniqueness_check :
    allocate_reconnect_ids const_a_stream =
      (String.mk (List.replicate 32 'a'), String.mk (List.replicate 32 'a'),
       String.mk (List.replicate 32 'a'), String.mk (List.replicate 32 'a')) ∧
    pairwise_distinct (random_string const_a_stream 0) (random_string const_a_stream 32)
      (random_string const_a_stream 64) (random_string const_a_stream 96) = false := by
  constructor
  · decide
  · decide

/-- A peer that completed the handshake and is Idle. -/
def idle_peer : Peer :=
  { tx := open_chan, player_name := none, state := PeerState.Idle,
    client_info := some { name := "c", version := "1", protocol := "0" } }

/-- A freshly accepted peer (state Unknown). -/
def unknown_peer : Peer :=
  { tx := open_chan, player_name := none, state := PeerState.Unknown 0,
    client_info := none }

/-- C8 counterexample: a Connect.Client frame with protocol version 9 from
a peer in Idle state is answered with
Connect.Error.UnsupportedProtocolVersion, although the claim says a peer
whose state is not Unknown gets no reply. -/
theorem C8_counterexample :
    idle_peer.state.is_unknown = false ∧
    (process_hs_connect idle_peer "c" "1" "9").1.tx.sent = [unsupported_protocol_pdu] :=
  ⟨rfl, rfl⟩

/-- C8 (amended): on a matching protocol version the handler acts only on
peers in state Unknown (reply Connect.Ok, set client_info, set state Idle,
insert into the Idle bucket) and ignores the message otherwise; but on a
version mismatch it replies Connect.Error.UnsupportedProtocolVersion
regardless of the peer state, leaving the peer state unchanged. -/
theorem C8_connect_replies_on_mismatch_regardless (peer : Peer)
    (n : String) (v : String) (p : String) :
    (p = PROTO_VER → peer.state.is_unknown = true → peer.tx.isOpen = true →
      process_hs_connect peer n v p =
        ({ peer with
             tx := { peer.tx with sent := peer.tx.sent ++ [connect_ok_pdu] }
             state := PeerState.Idle
             client_info := some { name := n, version := v, protocol := p } },
          true)) ∧
    (p = PROTO_VER → peer.state.is_unknown = false →
      process_hs_connect peer n v p = (peer, false)) ∧
    (¬ p = PROTO_VER → peer.tx.isOpen = true →
      process_hs_connect peer n v p =
        ({ peer with
             tx := { peer.tx with sent := peer.tx.sent ++ [unsupported_protocol_pdu] } },
          false)) := by
  refine ⟨?_, ?_, ?_⟩
  · intro h1 h2 h3
    simp [process_hs_connect, Chan.unbounded_send, h1, h2, h3]
  · intro h1 h2
    simp [process_hs_connect, h1, h2]
  · intro h1 h2
    simp [process_hs_connect, Chan.unbounded_send, h1, h2]

/-- Witness for C8: a version-matching Connect.Client from an Unknown peer
is accepted and the peer becomes Idle. -/
theorem C8_witness :
    process_hs_connect unknown_peer "c" "1" "0" =
      ({ unknown_peer with
           tx := { unknown_peer.tx with
                    sent := unknown_peer.tx.sent ++ [connect_ok_pdu] }
           state := PeerState.Idle
           client_info := some { name := "c", version := "1", protocol := "0" } },
        true) :=
  (C8_connect_replies_on_mismatch_regardless unknown_peer "c" "1" "0").1 rfl rfl rfl

/-- C9 counterexample: the kick frame on the wire nests a player_kick
object whose only field is named discritpion, and a lookup of a field
named description finds nothing. -/
theorem C9_counterexample :
    ((kick_pdu_json.getObj "matchmaking_queue").bind
        (fun j => j.getObj "player_kick")) =
      some (Json.obj [("discritpion", Json.str "Heartbeat timeout")]) ∧
    ((kick_pdu_json.getObj "matchmaking_queue").bind
        (fun j => j.getObj "player_kick")).map
      (fun k => k.hasKey "description") = some false :=
  ⟨rfl, rfl⟩

/-- C9 (amended): the heartbeat-timeout kick frame is encoded as
matchmaking_queue.player_kick carrying a single field named discritpion
(the misspelled source identifier) whose value is Heartbeat timeout. -/
theorem C9_kick_frame_encoding :
    kick_pdu_json =
      Json.obj [("matchmaking_queue", Json.obj [("player_kick",
        Json.obj [("discritpion", Json.str "Heartbeat timeout")])])] := rfl

end FpcServer
